import Mathlib

/-
Verification development for the phlego RV32IM emulator.

The repository contains two parallel implementations of the execution
engine: a single-cycle interpreter (CPU::run with a fetch/decode/execute
loop, backed by a bounds-checked Memory) and a threaded five-stage
variant (src/src/cpu.cpp, backed by an unchecked Memory).  The byte-level
memory layout, the decoder bit manipulations and the execution-unit
arithmetic are identical between the two, so they are embedded once
below; the write-back stage of the five-stage variant is embedded
separately.

Machine integers are modelled as Nat with explicit reduction modulo
2 to the 32 (uint32_t), modulo 256 (uint8_t) and modulo 65536 (uint16_t)
at every point where the C++ types truncate.  Register files and the
memory byte array are total functions from Nat; the C++ types guarantee
the stored values stay below the respective bounds because every write
is masked.  Fallible operations (C++ throw) return Except SimErr.
-/

/-- Two to the power 32, the modulus of all uint32_t arithmetic. -/
def two32 : Nat := 4294967296

/-- Reinterpret a 32-bit pattern as a signed twos-complement value,
as the C++ cast to int32_t does. -/
def toInt32 (x : Nat) : Int :=
  if x % two32 < 2147483648 then (x % two32 : Int) else (x % two32 : Int) - (two32 : Int)

/-- Truncate an integer to its 32-bit twos-complement pattern,
as the C++ conversion to uint32_t does. -/
def toUInt32 (i : Int) : Nat := (i % (two32 : Int)).toNat

/-- Arithmetic right shift of a 32-bit pattern by sh places
(the C++ expression (int32_t)x >> sh for 0 <= sh <= 31). -/
def sra32 (x sh : Nat) : Nat :=
  if x % two32 < 2147483648 then (x % two32) >>> sh
  else ((x % two32) >>> sh) ||| ((4294967295 <<< (32 - sh)) % two32)

/-- Sign extension of a byte to a 32-bit pattern
(the C++ cast (int8_t) assigned to a uint32_t). -/
def sext8 (b : Nat) : Nat :=
  if b % 256 < 128 then b % 256 else (b % 256) ||| 4294967040

/-- Sign extension of a half word to a 32-bit pattern
(the C++ cast (int16_t) assigned to a uint32_t). -/
def sext16 (h : Nat) : Nat :=
  if h % 65536 < 32768 then h % 65536 else (h % 65536) ||| 4294901760

/-- Write a 32-bit value into a register file at index rd, with the
uint32_t truncation of the C++ assignment.  Note: faithful to the
source, there is no special case dropping writes to index 0. -/
def updReg (regs : Nat → Nat) (rd v : Nat) : Nat → Nat :=
  fun i => if i = rd then v % two32 else regs i

/-- Write one byte into the memory byte array, with the uint8_t
truncation of the C++ assignment. -/
def updByte (d : Nat → Nat) (a v : Nat) : Nat → Nat :=
  fun i => if i = a then v % 256 else d i

/-- Error kinds surfaced by the embedded code: the std out_of_range of
Memory, and the runtime errors thrown by CPU decode and execute. -/
inductive SimErr : Type where
  | outOfRange : SimErr
  | zeroInstruction : SimErr
  | illegalOpcode : SimErr
  | divisionByZero : SimErr
  | remainderByZero : SimErr
  | unsupportedFunct3 : SimErr
  | unsupportedVariant : SimErr

/-- Boolean success test for an Except result. -/
def isOkE {α : Type} : Except SimErr α → Bool
  | Except.ok _ => true
  | Except.error _ => false

/-- The memory image: a byte array of a given size, mirroring
std vector of uint8_t data together with its size.  Addresses are
uint32_t, so every operation first reduces its address modulo 2^32. -/
structure Memory : Type where
  data : Nat → Nat
  size : Nat

/-- Memory load_byte: fails iff address >= size, else returns data at
the address. -/
def Memory.load_byte (m : Memory) (address : Nat) : Except SimErr Nat :=
  let a := address % two32
  if m.size ≤ a then Except.error SimErr.outOfRange
  else Except.ok (m.data a)

/-- Memory load_half_word: the C++ check is address + 1 >= size with
address + 1 computed in wrapping uint32_t arithmetic; the result is
(data at address) shifted left 8 or-ed with data at address + 1, i.e.
the byte at the LOWER address is the MORE significant one. -/
def Memory.load_half_word (m : Memory) (address : Nat) : Except SimErr Nat :=
  let a := address % two32
  if m.size ≤ (a + 1) % two32 then Except.error SimErr.outOfRange
  else Except.ok ((m.data a <<< 8) ||| m.data ((a + 1) % two32))

/-- Memory load_word: the C++ check is address + 3 >= size with the sum
computed in wrapping uint32_t arithmetic; the word is assembled with the
byte at the lowest address as the most significant byte. -/
def Memory.load_word (m : Memory) (address : Nat) : Except SimErr Nat :=
  let a := address % two32
  if m.size ≤ (a + 3) % two32 then Except.error SimErr.outOfRange
  else Except.ok ((m.data a <<< 24) ||| (m.data ((a + 1) % two32) <<< 16) |||
                  (m.data ((a + 2) % two32) <<< 8) ||| m.data ((a + 3) % two32))

/-- Memory store_byte: fails iff address >= size. -/
def Memory.store_byte (m : Memory) (address v : Nat) : Except SimErr Memory :=
  let a := address % two32
  if m.size ≤ a then Except.error SimErr.outOfRange
  else Except.ok { m with data := updByte m.data a (v % 256) }

/-- Memory store_half_word: bounds check on address + 1 in wrapping
uint32_t arithmetic; the high byte of the value goes to the lower
address. -/
def Memory.store_half_word (m : Memory) (address v : Nat) : Except SimErr Memory :=
  let a := address % two32
  let w := v % 65536
  if m.size ≤ (a + 1) % two32 then Except.error SimErr.outOfRange
  else
    let d := updByte (updByte m.data a (w >>> 8)) ((a + 1) % two32) (w &&& 0xFF)
    Except.ok { m with data := d }

/-- Memory store_word: bounds check on address + 3 in wrapping uint32_t
arithmetic; bytes are stored most significant first (value >> 24 at the
lowest address, value and 0xFF at the highest). -/
def Memory.store_word (m : Memory) (address v : Nat) : Except SimErr Memory :=
  let a := address % two32
  let w := v % two32
  if m.size ≤ (a + 3) % two32 then Except.error SimErr.outOfRange
  else
    let d := updByte (updByte (updByte (updByte m.data a (w >>> 24))
      ((a + 1) % two32) ((w >>> 16) &&& 0xFF))
      ((a + 2) % two32) ((w >>> 8) &&& 0xFF))
      ((a + 3) % two32) (w &&& 0xFF)
    Except.ok { m with data := d }

/-- R-Type instruction fields, as in cpu.h. -/
structure RType : Type where
  funct3 : Nat
  funct7 : Nat
  rd : Nat
  rs1 : Nat
  rs2 : Nat

/-- I-Type instruction fields; imm holds the 32-bit pattern of the
sign-extended int32_t immediate. -/
structure IType : Type where
  funct3 : Nat
  rd : Nat
  rs1 : Nat
  imm : Nat

/-- S-Type instruction fields. -/
structure SType : Type where
  funct3 : Nat
  rs1 : Nat
  rs2 : Nat
  imm : Nat

/-- B-Type instruction fields. -/
structure BType : Type where
  funct3 : Nat
  rs1 : Nat
  rs2 : Nat
  imm : Nat

/-- J-Type instruction fields. -/
structure JType : Type where
  rd : Nat
  imm : Nat

/-- U-Type instruction fields (present only in the five-stage variant). -/
structure UType : Type where
  rd : Nat
  imm : Nat

/-- The tagged variant produced by the decoder. -/
inductive Decoded : Type where
  | R : RType → Decoded
  | I : IType → Decoded
  | S : SType → Decoded
  | B : BType → Decoded
  | J : JType → Decoded
  | U : UType → Decoded

/-- CPU decode, from the single-cycle interpreter (identical bit
manipulation in the five-stage variant).  A zero instruction and any
opcode outside the switch throw.  The I immediate is
(int32_t)instruction >> 20 (arithmetic shift).  The S immediate places
inst[31:25] at bits 5..11 and sign-extends on bit 11.  The B immediate
or-s inst[31:25] shifted to bits 5..11 (so bit 11 picks up inst[31]),
inst[11:8] at bits 1..4, inst[7] at bit 11 and inst[31] at bit 12,
then sign-extends on bit 12.  The J immediate places inst[30:21] at
bits 0..9, inst[20] at bit 11, inst[19:12] at bits 12..19 and fills
bits 20..31 from inst[31]. -/
def decode (instruction : Nat) : Except SimErr Decoded :=
  if instruction = 0 then Except.error SimErr.zeroInstruction
  else
    let opcode := instruction &&& 0x7F
    if opcode = 0x33 then
      Except.ok (Decoded.R ⟨(instruction >>> 12) &&& 0x7, (instruction >>> 25) &&& 0x7F,
        (instruction >>> 7) &&& 0x1F, (instruction >>> 15) &&& 0x1F,
        (instruction >>> 20) &&& 0x1F⟩)
    else if opcode = 0x03 then
      let imm := if instruction &&& 0x80000000 = 0 then instruction >>> 20
                 else (instruction >>> 20) ||| 0xFFFFF000
      Except.ok (Decoded.I ⟨(instruction >>> 12) &&& 0x7, (instruction >>> 7) &&& 0x1F,
        (instruction >>> 15) &&& 0x1F, imm⟩)
    else if opcode = 0x13 then
      let imm := if instruction &&& 0x80000000 = 0 then instruction >>> 20
                 else (instruction >>> 20) ||| 0xFFFFF000
      Except.ok (Decoded.I ⟨(instruction >>> 12) &&& 0x7, (instruction >>> 7) &&& 0x1F,
        (instruction >>> 15) &&& 0x1F, imm⟩)
    else if opcode = 0x67 then
      let imm := if instruction &&& 0x80000000 = 0 then instruction >>> 20
                 else (instruction >>> 20) ||| 0xFFFFF000
      Except.ok (Decoded.I ⟨(instruction >>> 12) &&& 0x7, (instruction >>> 7) &&& 0x1F,
        (instruction >>> 15) &&& 0x1F, imm⟩)
    else if opcode = 0x23 then
      let imm0 := ((instruction >>> 7) &&& 0x1F) ||| ((instruction >>> 25) <<< 5)
      let imm := if imm0 &&& 0x800 = 0 then imm0 else imm0 ||| 0xFFFFF000
      Except.ok (Decoded.S ⟨(instruction >>> 12) &&& 0x7, (instruction >>> 15) &&& 0x1F,
        (instruction >>> 20) &&& 0x1F, imm⟩)
    else if opcode = 0x63 then
      let imm0 := ((instruction >>> 7) &&& 0x1E) ||| ((instruction >>> 25) <<< 5) |||
                  ((instruction &&& 0x80) <<< 4) ||| ((instruction &&& 0x80000000) >>> 19)
      let imm := if imm0 &&& 0x1000 = 0 then imm0 else imm0 ||| 0xFFFFE000
      Except.ok (Decoded.B ⟨(instruction >>> 12) &&& 0x7, (instruction >>> 15) &&& 0x1F,
        (instruction >>> 20) &&& 0x1F, imm⟩)
    else if opcode = 0x6F then
      let imm := ((instruction >>> 21) &&& 0x3FF) |||
                 (((instruction >>> 20) &&& 0x1) <<< 11) |||
                 (((instruction >>> 12) &&& 0xFF) <<< 12) |||
                 (if instruction &&& 0x80000000 = 0 then 0 else 0xFFF00000)
      Except.ok (Decoded.J ⟨(instruction >>> 7) &&& 0x1F, imm⟩)
    else Except.error SimErr.illegalOpcode

/-- Architectural state of the single-cycle interpreter: the program
counter and the plain uint32_t register array (no zero-register
special case exists in the source). -/
structure CPUState : Type where
  pc : Nat
  regs : Nat → Nat

/-- CPU execute_r_type, single-cycle variant: dispatch on funct3 then
funct7, writing registers[rd].  An unmatched funct7 inside a handled
funct3 silently leaves the registers unchanged (notably DIVU, funct3 5
funct7 1, which has no branch at all).  DIV, REM and REMU throw when
the divisor register is zero.  MULH, MULHSU and MULHU multiply the
uint32_t register values after conversion to 64 bits, so all three
compute the high word of the unsigned product. -/
def execute_r_type (instr : RType) (regs : Nat → Nat) : Except SimErr (Nat → Nat) :=
  if instr.funct3 = 0 then
    if instr.funct7 = 0x00 then
      Except.ok (updReg regs instr.rd (regs instr.rs1 + regs instr.rs2))
    else if instr.funct7 = 0x20 then
      Except.ok (updReg regs instr.rd (regs instr.rs1 + (two32 - regs instr.rs2 % two32)))
    else if instr.funct7 = 0x01 then
      Except.ok (updReg regs instr.rd (regs instr.rs1 * regs instr.rs2))
    else Except.ok regs
  else if instr.funct3 = 1 then
    if instr.funct7 = 0x00 then
      Except.ok (updReg regs instr.rd (regs instr.rs1 <<< (regs instr.rs2 &&& 0x1F)))
    else if instr.funct7 = 0x01 then
      Except.ok (updReg regs instr.rd ((regs instr.rs1 * regs instr.rs2) >>> 32))
    else Except.ok regs
  else if instr.funct3 = 2 then
    if instr.funct7 = 0x00 then
      Except.ok (updReg regs instr.rd
        (if toInt32 (regs instr.rs1) < toInt32 (regs instr.rs2) then 1 else 0))
    else if instr.funct7 = 0x01 then
      Except.ok (updReg regs instr.rd ((regs instr.rs1 * regs instr.rs2) >>> 32))
    else Except.ok regs
  else if instr.funct3 = 3 then
    if instr.funct7 = 0x00 then
      Except.ok (updReg regs instr.rd
        (if regs instr.rs1 < regs instr.rs2 then 1 else 0))
    else if instr.funct7 = 0x01 then
      Except.ok (updReg regs instr.rd ((regs instr.rs1 * regs instr.rs2) >>> 32))
    else Except.ok regs
  else if instr.funct3 = 4 then
    if instr.funct7 = 0x00 then
      Except.ok (updReg regs instr.rd (regs instr.rs1 ^^^ regs instr.rs2))
    else if instr.funct7 = 0x01 then
      if regs instr.rs2 = 0 then Except.error SimErr.divisionByZero
      else Except.ok (updReg regs instr.rd
        (toUInt32 (Int.tdiv (toInt32 (regs instr.rs1)) (toInt32 (regs instr.rs2)))))
    else Except.ok regs
  else if instr.funct3 = 5 then
    if instr.funct7 = 0x00 then
      Except.ok (updReg regs instr.rd (regs instr.rs1 >>> (regs instr.rs2 &&& 0x1F)))
    else if instr.funct7 = 0x20 then
      Except.ok (updReg regs instr.rd (sra32 (regs instr.rs1) (regs instr.rs2 &&& 0x1F)))
    else Except.ok regs
  else if instr.funct3 = 6 then
    if instr.funct7 = 0x00 then
      Except.ok (updReg regs instr.rd (regs instr.rs1 ||| regs instr.rs2))
    else if instr.funct7 = 0x01 then
      if regs instr.rs2 = 0 then Except.error SimErr.remainderByZero
      else Except.ok (updReg regs instr.rd
        (toUInt32 (Int.tmod (toInt32 (regs instr.rs1)) (toInt32 (regs instr.rs2)))))
    else Except.ok regs
  else if instr.funct3 = 7 then
    if instr.funct7 = 0x00 then
      Except.ok (updReg regs instr.rd (regs instr.rs1 &&& regs instr.rs2))
    else if instr.funct7 = 0x01 then
      if regs instr.rs2 = 0 then Except.error SimErr.remainderByZero
      else Except.ok (updReg regs instr.rd (regs instr.rs1 % regs instr.rs2))
    else Except.ok regs
  else Except.error SimErr.unsupportedFunct3

/-- CPU execute_alu, single-cycle variant: the register-immediate ALU
operations.  SRLI and SRAI share funct3 5 and are distinguished by bit
30 of the immediate pattern.  Every funct3 value 0..7 is handled.
Note that JALR instructions are also routed here by the run loop and,
with funct3 0, execute as ADDI. -/
def execute_alu (instr : IType) (regs : Nat → Nat) : Nat → Nat :=
  if instr.funct3 = 0 then
    updReg regs instr.rd (regs instr.rs1 + instr.imm)
  else if instr.funct3 = 1 then
    updReg regs instr.rd (regs instr.rs1 <<< (instr.imm &&& 0x1F))
  else if instr.funct3 = 2 then
    updReg regs instr.rd (if toInt32 (regs instr.rs1) < toInt32 instr.imm then 1 else 0)
  else if instr.funct3 = 3 then
    updReg regs instr.rd (if regs instr.rs1 < instr.imm then 1 else 0)
  else if instr.funct3 = 4 then
    updReg regs instr.rd (regs instr.rs1 ^^^ instr.imm)
  else if instr.funct3 = 5 then
    if instr.imm &&& 0x40000000 = 0 then
      updReg regs instr.rd (regs instr.rs1 >>> (instr.imm &&& 0x1F))
    else
      updReg regs instr.rd (sra32 (regs instr.rs1) (instr.imm &&& 0x1F))
  else if instr.funct3 = 6 then
    updReg regs instr.rd (regs instr.rs1 ||| instr.imm)
  else
    updReg regs instr.rd (regs instr.rs1 &&& instr.imm)

/-- CPU execute_load, single-cycle variant: effective address is
rs1 + imm in wrapping uint32_t arithmetic; LB and LH sign-extend, LW
loads the (big-endian assembled) word.  funct3 values other than
0, 1, 2 (in particular LBU 4 and LHU 5) fall to the default case,
which only logs and leaves the registers untouched. -/
def execute_load (instr : IType) (m : Memory) (regs : Nat → Nat) :
    Except SimErr (Nat → Nat) :=
  let address := (regs instr.rs1 + instr.imm) % two32
  if instr.funct3 = 0 then
    match m.load_byte address with
    | Except.error e => Except.error e
    | Except.ok b => Except.ok (updReg regs instr.rd (sext8 b))
  else if instr.funct3 = 1 then
    match m.load_half_word address with
    | Except.error e => Except.error e
    | Except.ok h => Except.ok (updReg regs instr.rd (sext16 h))
  else if instr.funct3 = 2 then
    match m.load_word address with
    | Except.error e => Except.error e
    | Except.ok w => Except.ok (updReg regs instr.rd w)
  else Except.ok regs

/-- CPU execute_store, single-cycle variant: effective address is
rs1 + imm in wrapping uint32_t arithmetic; SB stores the low byte, SH
the low half (high byte at the lower address), SW the word (most
significant byte at the lowest address).  Other funct3 values only
log. -/
def execute_store (instr : SType) (m : Memory) (regs : Nat → Nat) :
    Except SimErr Memory :=
  let address := (regs instr.rs1 + instr.imm) % two32
  if instr.funct3 = 0 then m.store_byte address (regs instr.rs2 &&& 0xFF)
  else if instr.funct3 = 1 then m.store_half_word address (regs instr.rs2 &&& 0xFFFF)
  else if instr.funct3 = 2 then m.store_word address (regs instr.rs2)
  else Except.ok m

/-- CPU execute_b_type, single-cycle variant: target is pc + imm in
wrapping uint32_t arithmetic.  Only BEQ (funct3 0) and BNE (funct3 1)
are implemented; a taken branch sets pc to target - 4 (compensating
the pc += 4 of the run loop).  Every other funct3, including BLT 4,
BGE 5, BLTU 6 and BGEU 7, falls to the default case, which only logs:
the branch is never taken. -/
def execute_b_type (instr : BType) (st : CPUState) : CPUState :=
  let target := (st.pc + instr.imm) % two32
  if instr.funct3 = 0 then
    if st.regs instr.rs1 = st.regs instr.rs2 then
      { st with pc := (target + (two32 - 4)) % two32 }
    else st
  else if instr.funct3 = 1 then
    if st.regs instr.rs1 = st.regs instr.rs2 then st
    else { st with pc := (target + (two32 - 4)) % two32 }
  else st

/-- CPU execute_j_type, single-cycle variant: registers[rd] receives
pc + 4 (no zero-register guard), then pc += imm - 4 in wrapping
uint32_t arithmetic (compensating the pc += 4 of the run loop). -/
def execute_j_type (instr : JType) (st : CPUState) : CPUState :=
  { pc := (st.pc + instr.imm + (two32 - 4)) % two32,
    regs := updReg st.regs instr.rd (st.pc + 4) }

/-- One iteration of the run loop of the single-cycle interpreter:
fetch the word at pc, decode it, dispatch on the variant (an I variant
goes to execute_load when the opcode is 0x03, otherwise to execute_alu,
so JALR executes as an ALU instruction and never redirects pc), then
halt iff the raw instruction word equals 0x00008067, else advance pc
by 4.  Returns the new state, the new memory and the halt flag. -/
def step (m : Memory) (st : CPUState) : Except SimErr (CPUState × Memory × Bool) :=
  match m.load_word st.pc with
  | Except.error e => Except.error e
  | Except.ok instruction =>
    match decode instruction with
    | Except.error e => Except.error e
    | Except.ok decoded =>
      let afterExec : Except SimErr (CPUState × Memory) :=
        match decoded with
        | Decoded.R r =>
          match execute_r_type r st.regs with
          | Except.error e => Except.error e
          | Except.ok regs2 => Except.ok ({ st with regs := regs2 }, m)
        | Decoded.I i =>
          if instruction &&& 0x7F = 0x03 then
            match execute_load i m st.regs with
            | Except.error e => Except.error e
            | Except.ok regs2 => Except.ok ({ st with regs := regs2 }, m)
          else Except.ok ({ st with regs := execute_alu i st.regs }, m)
        | Decoded.J j => Except.ok (execute_j_type j st, m)
        | Decoded.S s =>
          match execute_store s m st.regs with
          | Except.error e => Except.error e
          | Except.ok m2 => Except.ok (st, m2)
        | Decoded.B b => Except.ok (execute_b_type b st, m)
        | Decoded.U _ => Except.error SimErr.unsupportedVariant
      match afterExec with
      | Except.error e => Except.error e
      | Except.ok (st2, m2) =>
        if instruction = 0x00008067 then Except.ok (st2, m2, true)
        else Except.ok ({ st2 with pc := (st2.pc + 4) % two32 }, m2, false)

/-- Program counter after one step. -/
def stepPC (m : Memory) (st : CPUState) : Except SimErr Nat :=
  (step m st).map (fun r => r.1.pc)

/-- Value of register i after one step. -/
def stepReg (m : Memory) (st : CPUState) (i : Nat) : Except SimErr Nat :=
  (step m st).map (fun r => r.1.regs i)

/-- Halt flag produced by one step. -/
def stepHalt (m : Memory) (st : CPUState) : Except SimErr Bool :=
  (step m st).map (fun r => r.2.2)

/-- CPU write_back of the five-stage variant: commits a value to the
register file for R, I and U variants (S, B, J commit nothing).  For an
I variant the choice between the ALU result and the memory-stage
result is made by testing the opcode of the instruction word currently
sitting in the IF fetch register, not the opcode of the I instruction
being committed. -/
def CPU.write_back (fetchInstr : Nat) (instr : Decoded) (aluResult memResult : Nat)
    (regs : Nat → Nat) : Nat → Nat :=
  match instr with
  | Decoded.R r => updReg regs r.rd aluResult
  | Decoded.I i =>
    if fetchInstr &&& 0x7F = 0x13 then updReg regs i.rd aluResult
    else updReg regs i.rd memResult
  | Decoded.U u => updReg regs u.rd aluResult
  | _ => regs

/-- Re-encoding of a B-shape instruction following the bit layout given
in the specification: imm bit 12 to inst bit 31, imm bits 10..5 to inst
bits 30..25, rs2 to 24..20, rs1 to 19..15, funct3 to 14..12, imm bits
4..1 to inst bits 11..8, imm bit 11 to inst bit 7, opcode 0x63. -/
def spec_encode_b (funct3 rs1 rs2 imm : Nat) : Nat :=
  (((imm >>> 12) &&& 0x1) <<< 31) ||| (((imm >>> 5) &&& 0x3F) <<< 25) |||
  ((rs2 &&& 0x1F) <<< 20) ||| ((rs1 &&& 0x1F) <<< 15) |||
  ((funct3 &&& 0x7) <<< 12) ||| (((imm >>> 1) &&& 0xF) <<< 8) |||
  (((imm >>> 11) &&& 0x1) <<< 7) ||| 0x63

/-- A memory data function holding the big-endian bytes of one word at
address 0, matching what Memory store_word would deposit there. -/
def wordBytes (w : Nat) : Nat → Nat :=
  fun i => if i = 0 then (w >>> 24) % 256 else if i = 1 then (w >>> 16) % 256
           else if i = 2 then (w >>> 8) % 256 else if i = 3 then w % 256 else 0

/-- A 16-byte zeroed memory image. -/
def mem16 : Memory := ⟨fun _ => 0, 16⟩

/-- A zeroed memory image of the default 1 MiB size. -/
def bigMem : Memory := ⟨fun _ => 0, 1048576⟩

/-- Claim C1: the spec says memory is little-endian, with store_word
putting the least significant byte of the value at the lowest address
and load_word reading bytes in ascending significance, so that storing
0xDEADBEEF at A leaves bytes EF, BE, AD, DE at A..A+3.  The code is
big-endian: storing 0xDEADBEEF at address 0 leaves bytes DE, AD, BE,
EF at 0..3 (and load_word reads them back in descending significance,
so the word round-trips). -/
theorem c1_store_word_big_endian :
    (mem16.store_word 0 0xDEADBEEF).map
      (fun m2 => (m2.data 0, m2.data 1, m2.data 2, m2.data 3)) =
      Except.ok (0xDE, 0xAD, 0xBE, 0xEF) ∧
    (mem16.store_word 0 0xDEADBEEF).bind (fun m2 => m2.load_word 0) =
      Except.ok 0xDEADBEEF ∧
    (0xDE : Nat) ≠ 0xEF :=
  ⟨rfl, rfl, by decide⟩

/-- Claim C2: the spec says register index 0 is hardwired to zero, with
every write to it silently dropped.  The code has no such guard: a JAL
with rd = 0 executed at pc 0x100 stores the return address 0x104 into
register 0, after which reading index 0 returns 0x104, not 0. -/
theorem c2_jal_rd0_writes_x0 :
    (execute_j_type ⟨0, 8⟩ ⟨0x100, fun _ => 0⟩).regs 0 = 0x104 ∧
    (0x104 : Nat) ≠ 0 :=
  ⟨rfl, by decide⟩

/-- Claim C3 counterexample: the claim says every operation fails with
OutOfRange iff some touched byte lies outside the 1 MiB image, but a
load_word at address 0xFFFFFFFF touches byte 0xFFFFFFFF (far outside
the image) and still succeeds, because the bounds check computes
address + 3 in wrapping uint32_t arithmetic, obtaining 2. -/
theorem c3_wrap_escapes_bounds :
    isOkE (bigMem.load_word 0xFFFFFFFF) = true ∧ bigMem.size ≤ 0xFFFFFFFF :=
  ⟨rfl, by decide⟩

/-- Success of an if-error-else-ok expression is the negation of the
guard. -/
theorem isOkE_ite {α : Type} (c : Prop) [Decidable c] (e : SimErr) (x : α) :
    isOkE (if c then Except.error e else Except.ok x) = true ↔ ¬ c := by
  by_cases h : c <;> simp [h, isOkE]

/-- Claim C3 as amended: each of the six memory operations fails with
OutOfRange iff the index of its last touched byte, computed in
wrapping 32-bit arithmetic as (address + w - 1) mod 2^32, is at least
size.  For the byte operations this coincides with the original claim;
for the half-word and word operations it coincides whenever
address + w - 1 does not wrap past 2^32, and in particular loads at
address 0 and at size - w succeed while one byte past the high end
faults. -/
theorem c3_bounds_check_mod32 (m : Memory) (a v : Nat) (ha : a < two32) :
    (isOkE (m.load_byte a) = true ↔ a < m.size) ∧
    (isOkE (m.load_half_word a) = true ↔ (a + 1) % two32 < m.size) ∧
    (isOkE (m.load_word a) = true ↔ (a + 3) % two32 < m.size) ∧
    (isOkE (m.store_byte a v) = true ↔ a < m.size) ∧
    (isOkE (m.store_half_word a v) = true ↔ (a + 1) % two32 < m.size) ∧
    (isOkE (m.store_word a v) = true ↔ (a + 3) % two32 < m.size) := by
  have hm : a % two32 = a := Nat.mod_eq_of_lt ha
  refine ⟨?_, ?_, ?_, ?_, ?_, ?_⟩ <;>
    simp only [Memory.load_byte, Memory.load_half_word, Memory.load_word,
      Memory.store_byte, Memory.store_half_word, Memory.store_word, hm, isOkE_ite,
      Nat.not_le]

/-- Witness for the amended claim C3, at address 5 on the 16-byte
image. -/
theorem c3_bounds_check_mod32_witness :
    (5 : Nat) < two32 ∧
    ((isOkE (mem16.load_byte 5) = true ↔ 5 < mem16.size) ∧
     (isOkE (mem16.load_half_word 5) = true ↔ (5 + 1) % two32 < mem16.size) ∧
     (isOkE (mem16.load_word 5) = true ↔ (5 + 3) % two32 < mem16.size) ∧
     (isOkE (mem16.store_byte 5 7) = true ↔ 5 < mem16.size) ∧
     (isOkE (mem16.store_half_word 5 7) = true ↔ (5 + 1) % two32 < mem16.size) ∧
     (isOkE (mem16.store_word 5 7) = true ↔ (5 + 3) % two32 < mem16.size)) :=
  ⟨by decide, c3_bounds_check_mod32 mem16 5 7 (by decide)⟩

/-- An all-zero register file. -/
def regsZ : Nat → Nat := fun _ => 0

/-- A register file with x1 = 5 and every other register zero,
so that a division instruction with rs2 = 2 divides by zero. -/
def regsDiv : Nat → Nat := fun i => if i = 1 then 5 else 0

/-- Claim C4 counterexample: the claim says DIV with a zero divisor
yields 0xFFFFFFFF with no exception, but executing DIV x3, x1, x2 with
x1 = 5 and x2 = 0 throws a division-by-zero runtime error instead of
producing any result. -/
theorem c4_div_by_zero_raises :
    execute_r_type ⟨4, 1, 3, 1, 2⟩ regsDiv = Except.error SimErr.divisionByZero :=
  rfl

/-- Claim C4 as amended: a zero divisor is treated as an error, not as
an architecturally defined result: DIV, REM and REMU throw a runtime
error that aborts execution, and DIVU is not implemented at all (its
funct3/funct7 pair has no branch, so the registers are returned
unchanged and no quotient is produced). -/
theorem c4_div_zero_traps (regs : Nat → Nat) (rd rs1 rs2 : Nat)
    (h : regs rs2 = 0) :
    execute_r_type ⟨4, 1, rd, rs1, rs2⟩ regs = Except.error SimErr.divisionByZero ∧
    execute_r_type ⟨6, 1, rd, rs1, rs2⟩ regs = Except.error SimErr.remainderByZero ∧
    execute_r_type ⟨7, 1, rd, rs1, rs2⟩ regs = Except.error SimErr.remainderByZero ∧
    execute_r_type ⟨5, 1, rd, rs1, rs2⟩ regs = Except.ok regs := by
  refine ⟨?_, ?_, ?_, ?_⟩ <;> simp [execute_r_type, h]

/-- Witness for the amended claim C4, dividing by register 2 on the
all-zero register file. -/
theorem c4_div_zero_traps_witness :
    regsZ 2 = 0 ∧
    (execute_r_type ⟨4, 1, 3, 1, 2⟩ regsZ = Except.error SimErr.divisionByZero ∧
     execute_r_type ⟨6, 1, 3, 1, 2⟩ regsZ = Except.error SimErr.remainderByZero ∧
     execute_r_type ⟨7, 1, 3, 1, 2⟩ regsZ = Except.error SimErr.remainderByZero ∧
     execute_r_type ⟨5, 1, 3, 1, 2⟩ regsZ = Except.ok regsZ) :=
  ⟨rfl, c4_div_zero_traps regsZ 3 1 2 rfl⟩

/-- Claim C5: the spec says decoding then re-encoding each immediate
per the spec bit layouts reproduces the original instruction word.
For the B shape the decoder or-s the whole field inst[31:25] into imm
bits 5..11, so imm bit 11 picks up inst[31] instead of inst[7]: the
word 0x80000063 (inst[31] = 1, inst[7] = 0) decodes to immediate
pattern 0xFFFFF800 (imm bit 11 set), and re-encoding that immediate
per the spec layout yields 0x800000E3, not the original word. -/
theorem c5_b_imm_not_spec_layout :
    decode 0x80000063 = Except.ok (Decoded.B ⟨0, 0, 0, 0xFFFFF800⟩) ∧
    spec_encode_b 0 0 0 0xFFFFF800 = 0x800000E3 ∧
    (0x800000E3 : Nat) ≠ 0x80000063 :=
  ⟨rfl, rfl, by decide⟩

/-- A 64-byte memory whose word at address 0 encodes
blt x1, x2, +8 (0x0020C463). -/
def memBlt : Memory := ⟨wordBytes 0x0020C463, 64⟩

/-- A state at pc 0 with x1 = 0xFFFFFFFF (signed -1) and x2 = 1. -/
def stBlt : CPUState := ⟨0, fun i => if i = 1 then 0xFFFFFFFF else if i = 2 then 1 else 0⟩

/-- Claim C6 counterexample: the claim says all six branch conditions
are recognized, and that BLT branches when rs1 < rs2 as signed values.
With x1 = -1 and x2 = 1 the BLT condition holds, so the claim requires
the next pc to be 0 + 8; the code does not recognize funct3 4 (the
switch only handles BEQ and BNE), never takes the branch, and the next
pc is 4. -/
theorem c6_blt_not_taken :
    toInt32 0xFFFFFFFF < toInt32 1 ∧
    stepPC memBlt stBlt = Except.ok 4 ∧
    (4 : Nat) ≠ 8 :=
  ⟨by decide, rfl, by decide⟩

/-- Adding 4 modulo 2^32 undoes the taken-branch adjustment pc = target - 4. -/
theorem taken_pc_aux (t : Nat) (ht : t < two32) :
    ((t + (two32 - 4)) % two32 + 4) % two32 = t := by
  rw [Nat.mod_add_mod]
  have h1 : t + (two32 - 4) + 4 = t + two32 := by unfold two32; omega
  rw [h1, Nat.add_mod_right]
  exact Nat.mod_eq_of_lt ht

/-- Claim C6 as amended: no B-type instruction writes a register, and,
accounting for the pc += 4 of the run loop, the next pc is
pc + imm (mod 2^32) exactly when the branch is taken, where the only
recognized conditions are BEQ (funct3 0, taken iff the rs1 and rs2
register values are equal) and BNE (funct3 1, taken iff they differ);
every other funct3, including BLT, BGE, BLTU and BGEU, is never taken
and the next pc is pc + 4. -/
theorem c6_branch_semantics (b : BType) (st : CPUState) :
    (execute_b_type b st).regs = st.regs ∧
    ((execute_b_type b st).pc + 4) % two32 =
      (if (b.funct3 = 0 ∧ st.regs b.rs1 = st.regs b.rs2) ∨
          (b.funct3 = 1 ∧ st.regs b.rs1 ≠ st.regs b.rs2)
       then (st.pc + b.imm) % two32 else (st.pc + 4) % two32) := by
  have htgt : (st.pc + b.imm) % two32 < two32 := Nat.mod_lt _ (by decide)
  constructor
  · unfold execute_b_type
    by_cases h0 : b.funct3 = 0 <;> by_cases h1 : b.funct3 = 1 <;>
      by_cases he : st.regs b.rs1 = st.regs b.rs2 <;> simp [h0, h1, he]
  · simp only [execute_b_type]
    by_cases h0 : b.funct3 = 0
    · by_cases he : st.regs b.rs1 = st.regs b.rs2
      · rw [if_pos (Or.inl ⟨h0, he⟩), if_pos h0, if_pos he]
        exact taken_pc_aux _ htgt
      · rw [if_pos h0, if_neg he, if_neg]
        rintro (⟨_, hee⟩ | ⟨h1, _⟩)
        · exact he hee
        · rw [h0] at h1; exact absurd h1 (by decide)
    · by_cases h1 : b.funct3 = 1
      · by_cases he : st.regs b.rs1 = st.regs b.rs2
        · rw [if_neg h0, if_pos h1, if_pos he, if_neg]
          rintro (⟨hz, _⟩ | ⟨_, hne⟩)
          · exact h0 hz
          · exact hne he
        · rw [if_pos (Or.inr ⟨h1, he⟩), if_neg h0, if_pos h1, if_neg he]
          exact taken_pc_aux _ htgt
      · rw [if_neg h0, if_neg h1, if_neg]
        rintro (⟨hz, _⟩ | ⟨ho, _⟩)
        · exact h0 hz
        · exact h1 ho

/-- A 16-byte memory whose word at address 0 encodes
jalr x1, 0(x2) (0x000100E7). -/
def memJalr : Memory := ⟨wordBytes 0x000100E7, 16⟩

/-- A state at pc 0 with x2 = 0x100 and every other register zero. -/
def stJalr : CPUState := ⟨0, fun i => if i = 2 then 0x100 else 0⟩

/-- Claim C7: the spec says a JALR writes pc + 4 into rd and redirects
the pc to (rs1 + imm) with the low bit cleared.  The run loop routes
every I variant whose opcode is not 0x03 to the ALU unit, so
jalr x1, 0(x2) at pc 0 with x2 = 0x100 executes as addi x1, x2, 0:
x1 receives 0x100 (the claim requires pc + 4 = 4) and the next pc is
4 (the claim requires 0x100); no pc redirect happens at all. -/
theorem c7_jalr_executes_as_addi :
    stepReg memJalr stJalr 1 = Except.ok 0x100 ∧
    stepPC memJalr stJalr = Except.ok 4 ∧
    (0x100 : Nat) ≠ 4 :=
  ⟨rfl, rfl, by decide⟩

/-- A 16-byte memory whose word at address 0 encodes
ret, i.e. jalr x0, 0(x1) (0x00008067). -/
def memRet : Memory := ⟨wordBytes 0x00008067, 16⟩

/-- Claim C8: the spec says the runner plants a sentinel in ra and a
committing ret halts the simulator only when the pc it would set equals
that sentinel, so a ret whose ra is not the sentinel returns normally.
The run loop instead halts as soon as the raw fetched word equals
0x00008067, whatever ra holds: executing ret at pc 0 halts both with
ra = 0x4242 and with the different ra = 0x1337 (and no code anywhere
writes or compares a sentinel, so no ra value is ever treated as a
non-terminating return to the caller). -/
theorem c8_ret_halts_ignoring_ra :
    stepHalt memRet ⟨0, fun i => if i = 1 then 0x4242 else 0⟩ = Except.ok true ∧
    stepHalt memRet ⟨0, fun i => if i = 1 then 0x1337 else 0⟩ = Except.ok true ∧
    (0x4242 : Nat) ≠ 0x1337 :=
  ⟨rfl, rfl, by decide⟩

/-- A register file with x1 = 0xFFFFFFFF (signed -1) and x2 = 1. -/
def regsMulh : Nat → Nat := fun i => if i = 1 then 0xFFFFFFFF else if i = 2 then 1 else 0

/-- Claim C9: the spec says MULH returns the high 32 bits of the
product of the sign-extended operands, so MULH(-1, 1) must be
0xFFFFFFFF (the high word of the 64-bit -1).  The registers are
uint32_t, so the C++ casts to int64_t zero-extend: the code computes
the high word of 0xFFFFFFFF * 1 = 0, not 0xFFFFFFFF. -/
theorem c9_mulh_is_unsigned_high :
    (execute_r_type ⟨1, 1, 3, 1, 2⟩ regsMulh).map (fun r => r 3) = Except.ok 0 ∧
    (0 : Nat) ≠ 0xFFFFFFFF :=
  ⟨rfl, by decide⟩

/-- Claim C10: in the five-stage variant, the value committed to rd at
write-back for an I-type instruction is the ALU result exactly when
the unrelated instruction word currently held in the IF fetch register
has opcode 0x13, and the memory-stage result otherwise; the opcode of
the I-type instruction being committed plays no role. -/
theorem c10_write_back_keyed_on_fetch_opcode (fetchInstr : Nat) (i : IType)
    (aluResult memResult : Nat) (regs : Nat → Nat) :
    CPU.write_back fetchInstr (Decoded.I i) aluResult memResult regs i.rd =
      (if fetchInstr &&& 0x7F = 0x13 then aluResult % two32 else memResult % two32) := by
  by_cases h : fetchInstr &&& 0x7F = 0x13 <;> simp [CPU.write_back, updReg, h]
